import Mathlib

/-!
Verification of the ArchitectureDeck asynchronous job pipeline.

This file gives a shallow embedding of the queue/worker core of the
repository and proves the behavioural claims about it:

* `src/unnamed/part_012` — the AI generator (`generateDesign`,
  `generateMockDesign`, `addDefaultStyles`);
* `src/src/worker/index.ts` — the design-generation and diagram-rendering
  worker handlers and the Mermaid renderer (`renderMermaidToSvg`);
* `src/unnamed/part_007` — the queue helpers (`enqueueDesignGeneration`);
* `src/src/lib/redis.ts` — the Status Cache operations;
* `src/src/server/routers/jobs.ts` — the cache-first status read;
* `src/src/server/routers/designs.ts` — the refinement entry point;
* `src/prisma/migrations/20260109152605_/migration.sql` — the data model,
  in particular the unique index on (design_request_id, version).

JavaScript runtime values are modelled directly: absent/undefined/null
fields become `Option`, JSON arrays become `List`, thrown exceptions
become explicit error branches, and machine integers are `Nat` (all
progress/version arithmetic stays far below any overflow boundary).
-/

set_option autoImplicit false

namespace ArchitectureDeck

/-- Whether `pat` occurs at the very start of `s` (character lists). -/
def subAt : List Char → List Char → Bool
  | [], _ => true
  | _ :: _, [] => false
  | a :: as, b :: bs => a == b && subAt as bs

/-- Whether `pat` occurs contiguously anywhere inside `s` (character lists). -/
def hasSub (pat : List Char) : List Char → Bool
  | [] => pat.isEmpty
  | c :: rest => subAt pat (c :: rest) || hasSub pat rest

/-- JS `a.includes(b)` on strings: `b` occurs as a contiguous substring of `a`. -/
def strIncludes (s pat : String) : Bool :=
  hasSub pat.toList s.toList

/-- JS `s.trim()`: strip leading and trailing whitespace.  (Implemented
over the character list so that it evaluates by kernel reduction; JS
additionally strips some exotic Unicode spaces, which never occur in the
strings this code handles.) -/
def jsTrim (s : String) : String :=
  String.mk (((s.data.dropWhile Char.isWhitespace).reverse.dropWhile Char.isWhitespace).reverse)

/-- JS `s.toLowerCase()` for the ASCII strings this code handles. -/
def jsToLower (s : String) : String :=
  String.mk (s.data.map Char.toLower)

/-- JS `s.split("\n")[0]`: the characters before the first newline. -/
def firstLineOf (s : String) : String :=
  String.mk (s.data.takeWhile (fun c => !(c == '\n')))

/-! ### Generator data model (src/unnamed/part_012, lines 34-87)

The TS interfaces declare the structural arrays of `DesignOutput` as
required, but every value of this type produced on the OpenAI success
path comes from `JSON.parse` through an unchecked `as DesignOutput`
cast, so at runtime any field may be absent.  The embedding therefore
makes every field of the parsed payload an `Option`; the mock generator
populates all of them. -/

structure Component where
  name : String
  type : String
  description : String
  technologies : List String
  icon : Option String
  cloudProvider : Option String
  framework : Option String
deriving DecidableEq, Repr

structure DataStore where
  name : String
  type : String
  description : String
  technology : String
  icon : Option String
  cloudService : Option String
deriving DecidableEq, Repr

structure Api where
  name : String
  type : String
  description : String
  endpoints : Option (List String)
  protocol : Option String
  authentication : Option String
deriving DecidableEq, Repr

structure SecurityItem where
  category : String
  measures : List String
  tools : Option (List String)
deriving DecidableEq, Repr

structure ScaleChange where
  category : String
  description : String
  services : Option (List String)
deriving DecidableEq, Repr

/-- Runtime value of the TS `DesignOutput` interface.  Fields are `Option`
because on the provider success path the value is parsed JSON behind an
unchecked cast (part_012 line 387), so any of them may be missing. -/
structure DesignOutput where
  components : Option (List Component)
  dataStores : Option (List DataStore)
  apis : Option (List Api)
  security : Option (List SecurityItem)
  scaleChanges : Option (List ScaleChange)
  cloudProvider : Option String
  architectureStyle : Option String
deriving DecidableEq, Repr

structure GeneratedDesign where
  design : DesignOutput
  mermaidDiagram : String
deriving DecidableEq, Repr

structure Constraints where
  mustUse : Option (List String)
  avoid : Option (List String)
  preferredLanguage : Option String
deriving DecidableEq, Repr

/-- `DesignInput` (part_012 lines 16-32).  Scale profile, detail level and
input kind are kept as their literal string values. -/
structure DesignInput where
  inputType : String
  promptText : Option String
  repoUrl : Option String
  constraints : Constraints
  scaleProfile : String
  detailLevel : Option String
  suggestions : Option (List String)
  existingDesign : Option DesignOutput
  refinementPrompt : Option String
deriving DecidableEq, Repr

/-! ### Mock fallback generator (part_012 lines 475-733)

The three fallback Mermaid diagram literals are reproduced below; the
decorative emoji glyphs inside the node labels are elided from the
embedding (they never influence control flow: the renderer only looks at
the first line of the source). -/

def mockOverviewDiagram : String :=
  String.intercalate "\n"
    [ "flowchart TB"
    , "    subgraph Clients[\"Clients\"]"
    , "        Client[\"Users\"]"
    , "    end"
    , ""
    , "    subgraph Backend[\"Backend\"]"
    , "        API[\"API\"]"
    , "        Services[\"Services\"]"
    , "    end"
    , ""
    , "    subgraph Data[\"Data\"]"
    , "        DB[\"Database\"]"
    , "        Cache[\"Cache\"]"
    , "    end"
    , ""
    , "    Client --> API"
    , "    API --> Services"
    , "    Services --> DB"
    , "    Services --> Cache"
    , ""
    , "    style Client fill:#E8F5E9,stroke:#2E7D32,color:#1B5E20"
    , "    style API fill:#E3F2FD,stroke:#1565C0,color:#0D47A1"
    , "    style Services fill:#FFF3E0,stroke:#EF6C00,color:#E65100"
    , "    style DB fill:#F3E5F5,stroke:#7B1FA2,color:#4A148C"
    , "    style Cache fill:#FFEBEE,stroke:#C62828,color:#B71C1C" ]

def mockDetailedDiagram : String :=
  String.intercalate "\n"
    [ "flowchart TB"
    , "    subgraph Clients[\"Client Layer\"]"
    , "        Web[\"Web App<br/>Next.js 14 + React 18<br/>Tailwind CSS\"]"
    , "        Mobile[\"Mobile App<br/>React Native<br/>Expo\"]"
    , "    end"
    , ""
    , "    subgraph Edge[\"Edge Layer\"]"
    , "        CDN[\"CloudFront CDN<br/>Edge Caching<br/>WAF Protection\"]"
    , "        DNS[\"Route 53<br/>DNS + Health Checks\"]"
    , "    end"
    , ""
    , "    subgraph Gateway[\"API Gateway Layer\"]"
    , "        ALB[\"Application LB<br/>AWS ALB<br/>SSL Termination\"]"
    , "        APIGW[\"API Gateway<br/>Express.js + TypeScript<br/>Rate Limiting + Auth\"]"
    , "    end"
    , ""
    , "    subgraph Services[\"Service Layer\"]"
    , "        Auth[\"Auth Service<br/>JWT + OAuth2<br/>Cognito Integration\"]"
    , "        Core[\"Core Service<br/>NestJS<br/>Domain Logic\"]"
    , "        Worker[\"Background Worker<br/>BullMQ<br/>Job Processing\"]"
    , "    end"
    , ""
    , "    subgraph Data[\"Data Layer\"]"
    , "        Primary[\"PostgreSQL<br/>Amazon Aurora<br/>Multi-AZ\"]"
    , "        Cache[\"Redis Cluster<br/>ElastiCache<br/>Session + Cache\"]"
    , "        Queue[\"Message Queue<br/>Amazon SQS<br/>Async Processing\"]"
    , "        S3[\"Object Storage<br/>Amazon S3<br/>Files + Backups\"]"
    , "    end"
    , ""
    , "    subgraph Monitoring[\"Observability\"]"
    , "        Logs[\"CloudWatch Logs\"]"
    , "        Metrics[\"Prometheus + Grafana\"]"
    , "        Traces[\"X-Ray Tracing\"]"
    , "    end"
    , ""
    , "    DNS --> CDN"
    , "    CDN --> ALB"
    , "    Web --> CDN"
    , "    Mobile --> ALB"
    , "    ALB --> APIGW"
    , "    APIGW -->|\"JWT Auth\"| Auth"
    , "    APIGW -->|\"REST/GraphQL\"| Core"
    , "    Core --> Primary"
    , "    Core --> Cache"
    , "    Core -->|\"Enqueue\"| Queue"
    , "    Queue -->|\"Process\"| Worker"
    , "    Worker --> Primary"
    , "    Worker --> S3"
    , "    Auth --> Cache"
    , "    Core --> Logs"
    , "    Core --> Metrics"
    , "    APIGW --> Traces"
    , ""
    , "    style Web fill:#E8F5E9,stroke:#2E7D32,color:#1B5E20"
    , "    style Mobile fill:#E8F5E9,stroke:#2E7D32,color:#1B5E20"
    , "    style CDN fill:#ECEFF1,stroke:#546E7A,color:#37474F"
    , "    style DNS fill:#ECEFF1,stroke:#546E7A,color:#37474F"
    , "    style ALB fill:#E3F2FD,stroke:#1565C0,color:#0D47A1"
    , "    style APIGW fill:#E3F2FD,stroke:#1565C0,color:#0D47A1"
    , "    style Auth fill:#FFF3E0,stroke:#EF6C00,color:#E65100"
    , "    style Core fill:#FFF3E0,stroke:#EF6C00,color:#E65100"
    , "    style Worker fill:#FFF3E0,stroke:#EF6C00,color:#E65100"
    , "    style Primary fill:#F3E5F5,stroke:#7B1FA2,color:#4A148C"
    , "    style Cache fill:#FFEBEE,stroke:#C62828,color:#B71C1C"
    , "    style Queue fill:#FFF8E1,stroke:#F9A825,color:#F57F17"
    , "    style S3 fill:#F3E5F5,stroke:#7B1FA2,color:#4A148C"
    , "    style Logs fill:#E0F7FA,stroke:#00838F,color:#006064"
    , "    style Metrics fill:#E0F7FA,stroke:#00838F,color:#006064"
    , "    style Traces fill:#E0F7FA,stroke:#00838F,color:#006064" ]

def mockStandardDiagram : String :=
  String.intercalate "\n"
    [ "flowchart TB"
    , "    subgraph Clients[\"Client Layer\"]"
    , "        Web[\"Web App<br/>Next.js\"]"
    , "        Mobile[\"Mobile<br/>React Native\"]"
    , "    end"
    , ""
    , "    subgraph Gateway[\"API Gateway\"]"
    , "        LB[\"Load Balancer\"]"
    , "        API[\"API Server<br/>Express\"]"
    , "    end"
    , ""
    , "    subgraph Services[\"Services\"]"
    , "        Auth[\"Auth<br/>JWT + OAuth\"]"
    , "        Core[\"Core<br/>Business Logic\"]"
    , "    end"
    , ""
    , "    subgraph Data[\"Data Layer\"]"
    , "        DB[\"PostgreSQL<br/>Primary DB\"]"
    , "        Cache[\"Redis<br/>Cache\"]"
    , "    end"
    , ""
    , "    Web --> LB"
    , "    Mobile --> LB"
    , "    LB --> API"
    , "    API --> Auth"
    , "    API --> Core"
    , "    Auth --> Cache"
    , "    Core --> DB"
    , "    Core --> Cache"
    , ""
    , "    style Web fill:#E8F5E9,stroke:#2E7D32,color:#1B5E20"
    , "    style Mobile fill:#E8F5E9,stroke:#2E7D32,color:#1B5E20"
    , "    style LB fill:#E3F2FD,stroke:#1565C0,color:#0D47A1"
    , "    style API fill:#E3F2FD,stroke:#1565C0,color:#0D47A1"
    , "    style Auth fill:#FFF3E0,stroke:#EF6C00,color:#E65100"
    , "    style Core fill:#FFF3E0,stroke:#EF6C00,color:#E65100"
    , "    style DB fill:#F3E5F5,stroke:#7B1FA2,color:#4A148C"
    , "    style Cache fill:#FFEBEE,stroke:#C62828,color:#B71C1C" ]

/-- `generateMockDesign` (part_012 lines 475-733): the deterministic,
constraint-aware fallback.  `x || d` on a possibly-undefined `x` is
modelled by `Option.getD`. -/
def generateMockDesign (input : DesignInput) : GeneratedDesign :=
  let language := input.constraints.preferredLanguage.getD "TypeScript"
  let mustUse := input.constraints.mustUse.getD []
  let isLargeScale := input.scaleProfile == "DAU_1M"
  let isMediumScale := input.scaleProfile == "DAU_1K"
  let detailLevel := input.detailLevel.getD "STANDARD"
  let design : DesignOutput :=
    { components := some
        [ { name := "Web Application"
          , type := "Frontend"
          , description := "Modern single-page application with responsive design"
          , technologies :=
              [ if language == "TypeScript" then "React + TypeScript" else "React + " ++ language
              , "Tailwind CSS"
              , if mustUse.contains "Next.js" then "Next.js" else "Vite" ]
          , icon := some "react"
          , cloudProvider := some "Vercel"
          , framework := some "Next.js" }
        , { name := "API Gateway"
          , type := "Gateway"
          , description := "Central API layer handling authentication and routing"
          , technologies :=
              [ if mustUse.contains "Express" then "Express.js" else "Fastify"
              , language
              , "JWT Authentication" ]
          , icon := some "nodejs"
          , cloudProvider := some "AWS"
          , framework := some "Express.js" }
        , { name := "Core Service"
          , type := "Backend"
          , description := "Business logic implementation with domain patterns"
          , technologies := [language, "Domain Events", "CQRS"]
          , icon := some "nodejs"
          , cloudProvider := none
          , framework := some "NestJS" } ]
    , dataStores := some
        [ { name := "Primary Database"
          , type := "Relational"
          , description := "Main data store for structured business data"
          , technology := (mustUse.find? (fun t => ["PostgreSQL", "MySQL"].contains t)).getD "PostgreSQL"
          , icon := some "postgresql"
          , cloudService := some (if isLargeScale then "Amazon Aurora" else "Amazon RDS") }
        , { name := "Cache Layer"
          , type := "In-Memory"
          , description := "High-performance caching for sessions and hot data"
          , technology := "Redis"
          , icon := some "redis"
          , cloudService := some "Amazon ElastiCache" } ]
    , apis := some
        [ { name := "REST API"
          , type := "REST"
          , description := "Primary API for client-server communication"
          , endpoints := some ["POST /api/auth/login", "GET /api/resources", "POST /api/resources"]
          , protocol := some "HTTPS"
          , authentication := some "JWT" }
        , { name := "WebSocket API"
          , type := "WebSocket"
          , description := "Real-time communication for live updates"
          , endpoints := some ["wss://api.example.com/ws"]
          , protocol := some "WSS"
          , authentication := some "JWT" } ]
    , security := some
        [ { category := "Authentication"
          , measures := ["JWT-based auth with refresh tokens", "OAuth 2.0 support", "Rate limiting"]
          , tools := some ["Auth0", "AWS Cognito"] }
        , { category := "Data Protection"
          , measures := ["TLS 1.3 encryption", "Password hashing with bcrypt", "Input validation"]
          , tools := some ["AWS KMS", "HashiCorp Vault"] } ]
    , scaleChanges := some
        [ { category := "Compute"
          , description :=
              if isLargeScale then "Auto-scaling Kubernetes clusters across regions"
              else if isMediumScale then "Horizontal pod autoscaling"
              else "Single instance deployment"
          , services := some (if isLargeScale then ["EKS", "Fargate", "CloudFront"] else ["EC2", "ALB"]) }
        , { category := "Database"
          , description :=
              if isLargeScale then "Multi-region Aurora with read replicas"
              else if isMediumScale then "RDS with read replica"
              else "Single RDS instance"
          , services := some (if isLargeScale then ["Aurora Global", "DynamoDB Global Tables"] else ["RDS"]) } ]
    , cloudProvider := some "AWS"
    , architectureStyle := some (if isLargeScale then "Microservices" else "Modular Monolith") }
  let mermaidDiagram :=
    if detailLevel == "OVERVIEW" then mockOverviewDiagram
    else if detailLevel == "DETAILED" then mockDetailedDiagram
    else mockStandardDiagram
  { design := design, mermaidDiagram := mermaidDiagram }

/-! ### addDefaultStyles (part_012 lines 436-470) -/

/-- Node-id extraction modelling the global regex match over `(\w+)\[`:
a maximal run of word characters immediately followed by an opening
square bracket.  The accumulator holds the current word run, reversed. -/
def extractNodes : List Char → List Char → List String
  | [], _ => []
  | c :: rest, acc =>
    if c = '[' then
      if acc.isEmpty then extractNodes rest []
      else String.mk acc.reverse :: extractNodes rest []
    else if c.isAlphanum || c = '_' then extractNodes rest (c :: acc)
    else extractNodes rest []

/-- One style line for a node, by the naming-pattern cascade of
`addDefaultStyles`. -/
def styleLineFor (node : String) : String :=
  let l := jsToLower node
  if strIncludes l "client" || strIncludes l "web" || strIncludes l "mobile" || strIncludes l "user" then
    "style " ++ node ++ " fill:#E8F5E9,stroke:#2E7D32,color:#1B5E20"
  else if strIncludes l "api" || strIncludes l "gateway" || strIncludes l "lb" || strIncludes l "load" then
    "style " ++ node ++ " fill:#E3F2FD,stroke:#1565C0,color:#0D47A1"
  else if strIncludes l "db" || strIncludes l "database" || strIncludes l "postgres" || strIncludes l "mongo" then
    "style " ++ node ++ " fill:#F3E5F5,stroke:#7B1FA2,color:#4A148C"
  else if strIncludes l "cache" || strIncludes l "redis" then
    "style " ++ node ++ " fill:#FFEBEE,stroke:#C62828,color:#B71C1C"
  else if strIncludes l "queue" || strIncludes l "kafka" || strIncludes l "rabbit" then
    "style " ++ node ++ " fill:#FFF8E1,stroke:#F9A825,color:#F57F17"
  else if strIncludes l "service" || strIncludes l "worker" then
    "style " ++ node ++ " fill:#FFF3E0,stroke:#EF6C00,color:#E65100"
  else
    "style " ++ node ++ " fill:#ECEFF1,stroke:#546E7A,color:#37474F"

def addDefaultStyles (diagram : String) : String :=
  let nodes := extractNodes diagram.toList []
  let styles := nodes.map styleLineFor
  if styles.length > 0 then
    diagram ++ "\n\n    " ++ String.intercalate "\n    " styles
  else
    diagram

/-! ### generateDesign (part_012 lines 355-412)

The OpenAI chat-completion call is the external provider.  Its outcome is
an explicit argument:

* `none` models every failure inside the try-block up to and including
  `JSON.parse` — the provider call throwing, a response with no content,
  or unparsable JSON;
* `some parsed` models a successfully parsed JSON object, whose `design`
  and `mermaidDiagram` members may still be absent.

The prompt-formatting helper `formatUserPrompt` only builds the string
sent to the provider and cannot influence which branch is taken, so it
is not reproduced.  The logging call just before the successful return
reads `design.components.length`, `design.dataStores.length` and
`design.apis.length`; in JS a missing array makes that access throw a
TypeError, which the surrounding catch routes to the mock fallback.
`design.security` and `design.scaleChanges` are never accessed. -/

structure ParsedResponse where
  design : Option DesignOutput
  mermaidDiagram : Option String
deriving DecidableEq, Repr

def generateDesign (input : DesignInput) (provider : Option ParsedResponse) : GeneratedDesign :=
  match provider with
  | none => generateMockDesign input
  | some parsed =>
    match parsed.design, parsed.mermaidDiagram with
    | some design, some diagram =>
      match design.components, design.dataStores, design.apis with
      | some _, some _, some _ =>
        let diagram := if strIncludes diagram "style " then diagram else addDefaultStyles diagram
        { design := design, mermaidDiagram := diagram }
      | _, _, _ => generateMockDesign input
    | _, _ => generateMockDesign input

/-! ### renderMermaidToSvg (src/src/worker/index.ts, renderer, lines 291-356) -/

structure RenderResult where
  mermaidSource : String
  svgContent : Option String
  error : Option String
deriving DecidableEq, Repr

def validTypes : List String :=
  [ "flowchart", "graph", "sequenceDiagram", "classDiagram", "stateDiagram"
  , "erDiagram", "journey", "gantt", "pie", "mindmap" ]

/-- The renderer: stores the source for client-side rendering.  The only
try-block operations are pure string manipulations, so the catch branch
at lines 348-355 is unreachable and not modelled.  The first line is
`source.trim().split("\n")[0].toLowerCase()` (line 319), and the check is
`firstLine.includes(type.toLowerCase())` (lines 320-322). -/
def renderMermaidToSvg (source : String) : RenderResult :=
  if jsTrim source == "" then
    { mermaidSource := source, svgContent := none, error := some "Empty diagram source" }
  else
    let firstLine := jsToLower (firstLineOf (jsTrim source))
    let hasValidType := validTypes.any (fun t => strIncludes firstLine (jsToLower t))
    if hasValidType then
      { mermaidSource := source, svgContent := none, error := none }
    else
      { mermaidSource := source, svgContent := none
      , error := some "Invalid diagram type. Must start with a valid Mermaid diagram declaration." }

/-! ### Durable data model (prisma migration 20260109152605) -/

inductive JobStatus
  | PENDING
  | PROCESSING
  | COMPLETED
  | FAILED
deriving DecidableEq, Repr

inductive JobType
  | GENERATE_DESIGN
  | RENDER_DIAGRAM
deriving DecidableEq, Repr

/-- A row of `design_versions`.  The unique index
`design_versions_design_request_id_version_key` makes an insert with an
already-present (design_request_id, version) pair throw. -/
structure DesignVersionRow where
  id : String
  designRequestId : String
  version : Nat
  designData : DesignOutput
deriving DecidableEq, Repr

/-- A row of `diagram_versions`; same unique index on
(design_request_id, version) in its own numbering space.
`designVersionId` is the nullable link to the owning design version. -/
structure DiagramVersionRow where
  id : String
  designRequestId : String
  designVersionId : Option String
  version : Nat
  mermaidSource : String
  svgContent : Option String
deriving DecidableEq, Repr

/-- The queue payload for a design-generation job, i.e. the
`Omit<GenerateDesignJobData, "jobId">` object built by the routers.
The worker reads all of these fields (worker/index.ts lines 47-59). -/
structure DesignJobPayload where
  designRequestId : String
  inputType : String
  promptText : Option String
  repoUrl : Option String
  constraints : Constraints
  scaleProfile : String
  detailLevel : Option String
  suggestions : Option (List String)
  refinementPrompt : Option String
  existingDesign : Option DesignOutput
deriving DecidableEq, Repr

structure RenderDiagramPayload where
  designRequestId : String
  mermaidSource : String
deriving DecidableEq, Repr

/-- The opaque `metadata` JSONB column of a job row: the payload the
enqueue helper stored. -/
inductive JobMetadata
  | design (p : DesignJobPayload)
  | diagram (p : RenderDiagramPayload)
deriving DecidableEq, Repr

/-- A row of `jobs`.  Timestamps carry no information the claims inspect,
so `startedAt`/`completedAt` record only whether the column was written. -/
structure JobRow where
  id : String
  type : JobType
  status : JobStatus
  progress : Nat
  designRequestId : String
  metadata : Option JobMetadata
  error : Option String
  startedAt : Bool
  completedAt : Bool
deriving DecidableEq, Repr

/-- A Status Cache record (`job:<id>` redis hash): status, progress and
message.  `updatedAt` and the 24h TTL are not inspected by any claim;
absence of the whole record models eviction/expiry. -/
structure CacheRecord where
  status : JobStatus
  progress : Nat
  message : String
deriving DecidableEq, Repr

/-- `db.designVersion.findFirst orderBy version desc` for one request,
then `latestVersion?.version || 0` (worker/index.ts lines 98-102). -/
def latestDesignVersionNum (rows : List DesignVersionRow) (req : String) : Nat :=
  ((rows.filter (fun r => r.designRequestId == req)).map (fun r => r.version)).foldr max 0

/-- Same read for `diagram_versions` (worker/index.ts lines 121-125 and 197-201). -/
def latestDiagramVersionNum (rows : List DiagramVersionRow) (req : String) : Nat :=
  ((rows.filter (fun r => r.designRequestId == req)).map (fun r => r.version)).foldr max 0

/-- The unique-index check the database performs on
`designVersion.create`: is some row already holding this
(design_request_id, version) pair? -/
def designVersionTaken (rows : List DesignVersionRow) (req : String) (v : Nat) : Bool :=
  rows.any (fun r => r.designRequestId == req && r.version == v)

def diagramVersionTaken (rows : List DiagramVersionRow) (req : String) (v : Nat) : Bool :=
  rows.any (fun r => r.designRequestId == req && r.version == v)

/-! ### Queue helpers and Status Cache (src/unnamed/part_007, src/src/lib/redis.ts) -/

/-- A BullMQ entry on the design-generation queue: the payload plus the
job id, i.e. the object spread `add("generate", { ...data, jobId })`. -/
structure GenerateDesignJobData where
  jobId : String
  payload : DesignJobPayload
deriving DecidableEq, Repr

structure RenderDiagramJobData where
  jobId : String
  payload : RenderDiagramPayload
deriving DecidableEq, Repr

/-- The stores the enqueue helpers touch: the durable `jobs` table, the
two BullMQ queues, and the Status Cache keyed by job id. -/
structure AppState where
  jobs : List JobRow
  designQueue : List GenerateDesignJobData
  diagramQueue : List RenderDiagramJobData
  cache : List (String × CacheRecord)
deriving DecidableEq, Repr

/-- `setJobStatus` (redis.ts lines 59-75): hset on `job:<id>` plus a 24h
TTL.  The hash fields are overwritten wholesale, so the cache is a
last-write-wins map; prepending and reading the first hit models that. -/
def setJobStatus (cache : List (String × CacheRecord)) (jobId : String) (rec : CacheRecord) :
    List (String × CacheRecord) :=
  (jobId, rec) :: cache

/-- `getJobStatus` (redis.ts lines 77-92): `null` when the key is absent. -/
def getJobStatusCache (cache : List (String × CacheRecord)) (jobId : String) : Option CacheRecord :=
  (cache.find? (fun e => e.fst == jobId)).map (fun e => e.snd)

/-- `enqueueDesignGeneration` (part_007 lines 228-252).  `createFails`
models `db.job.create` throwing (durable store unavailable); the
function then throws before the queue push, leaving the state as it was.
`newJobId` stands for the cuid Prisma mints for the new row.  The result
pairs the returned value (or the thrown error) with the state after the
call. -/
def enqueueDesignGeneration (createFails : Bool) (newJobId : String) (data : DesignJobPayload)
    (st : AppState) : Except String String × AppState :=
  if createFails then
    (Except.error "db.job.create failed", st)
  else
    let job : JobRow :=
      { id := newJobId, type := JobType.GENERATE_DESIGN, status := JobStatus.PENDING
      , progress := 0, designRequestId := data.designRequestId
      , metadata := some (JobMetadata.design data), error := none
      , startedAt := false, completedAt := false }
    let st := { st with jobs := st.jobs ++ [job] }
    let entry : GenerateDesignJobData := { jobId := newJobId, payload := data }
    let st := { st with designQueue := st.designQueue ++ [entry] }
    let seeded : CacheRecord := { status := JobStatus.PENDING, progress := 0, message := "Job queued" }
    let st := { st with cache := setJobStatus st.cache newJobId seeded }
    (Except.ok newJobId, st)

/-! ### Worker pipeline — design generation (worker/index.ts lines 43-176) -/

/-- `DesignInput` built by the design worker from the queue payload
(worker/index.ts lines 77-91); `x || d` defaults become `Option.getD`. -/
def inputFromJobData (d : DesignJobPayload) : DesignInput :=
  { inputType := d.inputType
  , promptText := d.promptText
  , repoUrl := d.repoUrl
  , constraints :=
      { mustUse := some (d.constraints.mustUse.getD [])
      , avoid := some (d.constraints.avoid.getD [])
      , preferredLanguage := d.constraints.preferredLanguage }
  , scaleProfile := d.scaleProfile
  , detailLevel := some (d.detailLevel.getD "STANDARD")
  , suggestions := some (d.suggestions.getD [])
  , existingDesign := d.existingDesign
  , refinementPrompt := d.refinementPrompt }

/-- `isRefinement` (worker/index.ts line 61). -/
def isRefinementJob (d : DesignJobPayload) : Bool :=
  d.refinementPrompt.isSome && d.existingDesign.isSome

/-- Environment of one design-worker execution.

`provider` is the outcome of the OpenAI call inside `generateDesign`.
`midDesignRows` and `midDiagramRows` are rows committed by concurrent
executions in the §5 race window: after this execution computes its next
version from its own read, and before its own insert reaches the
database.  An empty list means no interference. -/
structure DesignEnv where
  provider : Option ParsedResponse
  midDesignRows : List DesignVersionRow
  midDiagramRows : List DiagramVersionRow
deriving DecidableEq, Repr

/-- The database slice one design-worker execution reads and writes. -/
structure DesignRunState where
  job : JobRow
  designRows : List DesignVersionRow
  diagramRows : List DiagramVersionRow
deriving DecidableEq, Repr

/-- Everything one handler execution produced: the ordered list of Status
Cache writes for `job:<jobId>`, the final job row, the final version
tables, and the error re-thrown to the queue (`none` on success). -/
structure RunOutcome where
  cacheWrites : List CacheRecord
  job : JobRow
  designRows : List DesignVersionRow
  diagramRows : List DiagramVersionRow
  rethrown : Option String
deriving DecidableEq, Repr

/-- Error message standing for the Prisma P2002 unique-constraint
violation on `design_versions` (design_request_id, version). -/
def designUniqueViolation : String :=
  "Unique constraint failed on design_versions (design_request_id, version)"

/-- Same for `diagram_versions`. -/
def diagramUniqueViolation : String :=
  "Unique constraint failed on diagram_versions (design_request_id, version)"

/-- The top-level catch of the design worker (worker/index.ts lines
153-170): cache gets FAILED with progress 0 and the error message; the
durable row gets status FAILED, the error text and a completion
timestamp — but no progress write; the error is then re-thrown. -/
def designCatch (writes : List CacheRecord) (job : JobRow)
    (designRows : List DesignVersionRow) (diagramRows : List DiagramVersionRow)
    (msg : String) : RunOutcome :=
  { cacheWrites := writes ++ [{ status := JobStatus.FAILED, progress := 0, message := msg }]
  , job := { job with status := JobStatus.FAILED, error := some msg, completedAt := true }
  , designRows := designRows
  , diagramRows := diagramRows
  , rethrown := some msg }

/-- Cache write at line 67: PROCESSING, 10, start message (refinement-aware). -/
def designW1 (d : DesignJobPayload) : CacheRecord :=
  { status := JobStatus.PROCESSING, progress := 10
  , message := if isRefinementJob d then "Starting design refinement..." else "Starting design generation..." }

/-- Cache write at line 75: PROCESSING, 30, analysis message. -/
def designW2 (d : DesignJobPayload) : CacheRecord :=
  { status := JobStatus.PROCESSING, progress := 30
  , message := if isRefinementJob d then "Analyzing refinement request..." else "Analyzing requirements..." }

/-- Cache write at line 94: PROCESSING, 50, generation message. -/
def designW3 (d : DesignJobPayload) : CacheRecord :=
  { status := JobStatus.PROCESSING, progress := 50
  , message := if isRefinementJob d then "Refining architecture..." else "Generating architecture..." }

/-- Cache write at line 104. -/
def designW4 : CacheRecord :=
  { status := JobStatus.PROCESSING, progress := 70, message := "Saving design version..." }

/-- Cache write at line 115. -/
def designW5 : CacheRecord :=
  { status := JobStatus.PROCESSING, progress := 85, message := "Rendering diagram..." }

/-- Cache write at line 139. -/
def designWDone : CacheRecord :=
  { status := JobStatus.COMPLETED, progress := 100, message := "Design generated successfully!" }

/-- `db.job.update` of the design worker at lines 68-71: PROCESSING,
start timestamp, progress 10. -/
def designProcessingRow (job : JobRow) : JobRow :=
  { job with status := JobStatus.PROCESSING, startedAt := true, progress := 10 }

/-- `db.job.update` at lines 140-147: COMPLETED, progress 100,
completion timestamp. -/
def completedRow (job : JobRow) : JobRow :=
  { job with status := JobStatus.COMPLETED, progress := 100, completedAt := true }

/-- The `DesignVersion` row the run inserts (lines 107-113): the version
is `max-at-read + 1`, the payload is the generator result, the id stands
for the cuid Prisma mints. -/
def newDesignRow (env : DesignEnv) (data : GenerateDesignJobData) (st : DesignRunState) :
    DesignVersionRow :=
  let d := data.payload
  let nextVersion := latestDesignVersionNum st.designRows d.designRequestId + 1
  { id := "dv-" ++ d.designRequestId ++ "-" ++ toString nextVersion
  , designRequestId := d.designRequestId
  , version := nextVersion
  , designData := (generateDesign (inputFromJobData d) env.provider).design }

/-- The `DiagramVersion` row the design run inserts (lines 128-136),
linked to the design version of the same run. -/
def newDesignDiagramRow (env : DesignEnv) (data : GenerateDesignJobData) (st : DesignRunState) :
    DiagramVersionRow :=
  let d := data.payload
  let renderResult := renderMermaidToSvg (generateDesign (inputFromJobData d) env.provider).mermaidDiagram
  let nextDiagramVersion := latestDiagramVersionNum st.diagramRows d.designRequestId + 1
  { id := "dg-" ++ d.designRequestId ++ "-" ++ toString nextDiagramVersion
  , designRequestId := d.designRequestId
  , designVersionId := some (newDesignRow env data st).id
  , version := nextDiagramVersion
  , mermaidSource := renderResult.mermaidSource
  , svgContent := renderResult.svgContent }

/-- One execution of the design-generation handler (worker/index.ts
lines 45-171), in program order:

1. cache `designW1` and `db.job.update` to PROCESSING/10 with a start
   timestamp (`designProcessingRow`);
2. cache `designW2`, then `designW3`; `generateDesign` (total);
3. read the latest design version and compute `nextVersion := max + 1`
   (lines 98-102); cache `designW4`; insert the new `DesignVersion` —
   the unique index throws if a concurrent execution (env.midDesignRows,
   landing between the read and the insert) claimed the same pair;
4. cache `designW5`; `renderMermaidToSvg`; read the latest diagram
   version; insert the new `DiagramVersion` — same conflict window
   (env.midDiagramRows);
5. cache `designWDone` and `db.job.update` to COMPLETED/100.

Any throw lands in the single top-level catch (`designCatch`), which
re-raises to the queue. -/
def designWorkerRun (env : DesignEnv) (data : GenerateDesignJobData) (st : DesignRunState) :
    RunOutcome :=
  let d := data.payload
  let nextVersion := latestDesignVersionNum st.designRows d.designRequestId + 1
  let designRows1 := st.designRows ++ env.midDesignRows
  if designVersionTaken designRows1 d.designRequestId nextVersion then
    designCatch [designW1 d, designW2 d, designW3 d, designW4]
      (designProcessingRow st.job) designRows1 st.diagramRows designUniqueViolation
  else
    let designRows2 := designRows1 ++ [newDesignRow env data st]
    let nextDiagramVersion := latestDiagramVersionNum st.diagramRows d.designRequestId + 1
    let diagramRows1 := st.diagramRows ++ env.midDiagramRows
    if diagramVersionTaken diagramRows1 d.designRequestId nextDiagramVersion then
      designCatch [designW1 d, designW2 d, designW3 d, designW4, designW5]
        (designProcessingRow st.job) designRows2 diagramRows1 diagramUniqueViolation
    else
      { cacheWrites := [designW1 d, designW2 d, designW3 d, designW4, designW5, designWDone]
      , job := completedRow (designProcessingRow st.job)
      , designRows := designRows2
      , diagramRows := diagramRows1 ++ [newDesignDiagramRow env data st]
      , rethrown := none }

/-! ### Worker pipeline — diagram re-rendering (worker/index.ts lines 179-238) -/

structure DiagramEnv where
  midDiagramRows : List DiagramVersionRow
deriving DecidableEq, Repr

structure DiagramRunOutcome where
  cacheWrites : List CacheRecord
  job : JobRow
  diagramRows : List DiagramVersionRow
  rethrown : Option String
deriving DecidableEq, Repr

/-- Cache write at line 188. -/
def diagramW1 : CacheRecord :=
  { status := JobStatus.PROCESSING, progress := 50, message := "Rendering diagram..." }

/-- Cache write at line 213. -/
def diagramWDone : CacheRecord :=
  { status := JobStatus.COMPLETED, progress := 100, message := "Diagram rendered!" }

/-- `db.job.update` of the diagram worker at lines 189-192: PROCESSING
with a start timestamp — and, unlike the design worker, no progress
write. -/
def diagramProcessingRow (job : JobRow) : JobRow :=
  { job with status := JobStatus.PROCESSING, startedAt := true }

/-- The `DiagramVersion` row the re-rendering run inserts (lines
204-211); no design version link. -/
def newRenderedDiagramRow (data : RenderDiagramJobData) (rows : List DiagramVersionRow) :
    DiagramVersionRow :=
  let d := data.payload
  let renderResult := renderMermaidToSvg d.mermaidSource
  let nextVersion := latestDiagramVersionNum rows d.designRequestId + 1
  { id := "dg-" ++ d.designRequestId ++ "-" ++ toString nextVersion
  , designRequestId := d.designRequestId
  , designVersionId := none
  , version := nextVersion
  , mermaidSource := renderResult.mermaidSource
  , svgContent := renderResult.svgContent }

/-- One execution of the diagram-rendering handler (worker/index.ts
lines 181-233).  Note two asymmetries against the design handler, both
direct from the source: the PROCESSING `db.job.update` (line 191) writes
no progress, and the catch (lines 221-231) writes FAILED and the error
but no completion timestamp and no progress. -/
def diagramWorkerRun (env : DiagramEnv) (data : RenderDiagramJobData) (job : JobRow)
    (diagramRows : List DiagramVersionRow) : DiagramRunOutcome :=
  let d := data.payload
  let nextVersion := latestDiagramVersionNum diagramRows d.designRequestId + 1
  let diagramRows1 := diagramRows ++ env.midDiagramRows
  if diagramVersionTaken diagramRows1 d.designRequestId nextVersion then
    { cacheWrites := [diagramW1, { status := JobStatus.FAILED, progress := 0, message := diagramUniqueViolation }]
    , job := { diagramProcessingRow job with status := JobStatus.FAILED, error := some diagramUniqueViolation }
    , diagramRows := diagramRows1
    , rethrown := some diagramUniqueViolation }
  else
    { cacheWrites := [diagramW1, diagramWDone]
    , job := completedRow (diagramProcessingRow job)
    , diagramRows := diagramRows1 ++ [newRenderedDiagramRow data diagramRows]
    , rethrown := none }

/-! ### Cache-first status read (src/src/server/routers/jobs.ts lines 36-63)

The access-control prelude of `getStatus` (job lookup, 404, ownership)
does not touch the returned {status, progress} pair and is elided; the
embedding covers the branch that serves the answer. -/

structure StatusView where
  status : JobStatus
  progress : Nat
deriving DecidableEq, Repr

/-- The {status, progress} pair `getStatus` serves: from the cache record
when one exists, else from the durable job row. -/
def getStatusView (job : JobRow) (cached : Option CacheRecord) : StatusView :=
  match cached with
  | some r => { status := r.status, progress := r.progress }
  | none => { status := job.status, progress := job.progress }

/-! ### Refinement entry point (src/src/server/routers/designs.ts lines 614-682) -/

structure TrpcError where
  code : String
  message : String
deriving DecidableEq, Repr

/-- The slice of a `design_requests` row the refinement mutation reads,
with the owning project's `isTemplate` flag inlined (the query includes
the project). -/
structure DesignRequestRow where
  id : String
  userId : String
  inputType : String
  promptText : Option String
  repoUrl : Option String
  constraints : Constraints
  scaleProfile : String
  detailLevel : String
  projectIsTemplate : Bool
deriving DecidableEq, Repr

/-- `designVersions orderBy version desc take 1` inside the request
query: the row with the greatest version for this request, if any. -/
def latestDesignVersionRow (rows : List DesignVersionRow) (req : String) :
    Option DesignVersionRow :=
  (rows.filter (fun r => r.designRequestId == req)).foldr
    (fun r acc =>
      match acc with
      | none => some r
      | some b => if b.version < r.version then some r else some b)
    none

/-- `refineDesign` (designs.ts lines 614-682), in program order: look up
the request (scoped to the calling user), reject template projects,
reject when no design version exists — all strictly before
`enqueueDesignGeneration` is called.  The result pairs the returned
job id (or the thrown TRPCError) with the state after the call; every
throw happens before any store is touched, so those branches return the
input state unchanged. -/
def refineDesign (ctxUserId designRequestId refinementPrompt : String)
    (detailLevel : Option String) (suggestions : List String)
    (requests : List DesignRequestRow) (designRows : List DesignVersionRow)
    (createFails : Bool) (newJobId : String) (st : AppState) :
    Except TrpcError String × AppState :=
  match requests.find? (fun r => r.id == designRequestId && r.userId == ctxUserId) with
  | none =>
    (Except.error { code := "NOT_FOUND", message := "Design request not found" }, st)
  | some request =>
    if request.projectIsTemplate then
      (Except.error { code := "FORBIDDEN", message := "Cannot refine template designs" }, st)
    else
      match latestDesignVersionRow designRows designRequestId with
      | none =>
        (Except.error { code := "BAD_REQUEST", message := "No existing design version to refine" }, st)
      | some latestVersion =>
        let payload : DesignJobPayload :=
          { designRequestId := request.id
          , inputType := request.inputType
          , promptText := request.promptText
          , repoUrl := request.repoUrl
          , constraints := request.constraints
          , scaleProfile := request.scaleProfile
          , detailLevel := some (detailLevel.getD request.detailLevel)
          , suggestions := some suggestions
          , refinementPrompt := some refinementPrompt
          , existingDesign := some latestVersion.designData }
        match enqueueDesignGeneration createFails newJobId payload st with
        | (Except.ok jobId, st1) => (Except.ok jobId, st1)
        | (Except.error e, st1) =>
          (Except.error { code := "INTERNAL_SERVER_ERROR", message := e }, st1)

/-! ### Version allocation under concurrency (claim C1)

The worker allocates `nextVersion := (max existing version, or 0) + 1`
from a read (worker/index.ts lines 98-102) and inserts later (line 107);
between the two, concurrent executions for the same request may commit.
The unique index `design_versions_design_request_id_version_key` makes a
duplicate insert throw instead of writing.  The trace model below
captures exactly this protocol for one request: a `read` step computes
`max + 1` from the store as it is at read time; an insert step later
lands that value, succeeding only when the pair is still free.
`completed` counts the successful inserts (the successful
generations/refinements). -/

def listMax (l : List Nat) : Nat := l.foldr max 0

structure AllocState where
  versions : List Nat
  pending : List Nat
  completed : Nat
deriving DecidableEq, Repr

inductive AllocStep : AllocState → AllocState → Prop
  | read (s : AllocState) :
      AllocStep s
        { versions := s.versions
        , pending := (listMax s.versions + 1) :: s.pending
        , completed := s.completed }
  | insertOk (s : AllocState) (v : Nat) (hp : v ∈ s.pending) (hfree : v ∉ s.versions) :
      AllocStep s
        { versions := v :: s.versions
        , pending := s.pending.erase v
        , completed := s.completed + 1 }
  | insertConflict (s : AllocState) (v : Nat) (hp : v ∈ s.pending) (htaken : v ∈ s.versions) :
      AllocStep s
        { versions := s.versions
        , pending := s.pending.erase v
        , completed := s.completed }

/-- A fresh request: no versions, no in-flight allocations. -/
def allocInit : AllocState := { versions := [], pending := [], completed := 0 }

def AllocReachable (s : AllocState) : Prop :=
  Relation.ReflTransGen AllocStep allocInit s

def allocInvariant (s : AllocState) : Prop :=
  s.versions.Nodup ∧ (∀ v, v ∈ s.versions ↔ 1 ≤ v ∧ v ≤ s.completed) ∧
    ∀ p ∈ s.pending, 1 ≤ p ∧ p ≤ s.completed + 1

/-! ### Concrete fixtures used by witnesses and counterexamples -/

def sampleConstraints : Constraints :=
  { mustUse := none, avoid := none, preferredLanguage := none }

def samplePayload : DesignJobPayload :=
  { designRequestId := "req1", inputType := "PROMPT", promptText := some "Build a chat app"
  , repoUrl := none, constraints := sampleConstraints, scaleProfile := "DAU_1K"
  , detailLevel := none, suggestions := none, refinementPrompt := none, existingDesign := none }

def sampleJobData : GenerateDesignJobData := { jobId := "job1", payload := samplePayload }

def sampleInput : DesignInput := inputFromJobData samplePayload

def freshJobRow : JobRow :=
  { id := "job1", type := JobType.GENERATE_DESIGN, status := JobStatus.PENDING, progress := 0
  , designRequestId := "req1", metadata := some (JobMetadata.design samplePayload), error := none
  , startedAt := false, completedAt := false }

def freshRunState : DesignRunState :=
  { job := freshJobRow, designRows := [], diagramRows := [] }

def emptyDesign : DesignOutput :=
  { components := none, dataStores := none, apis := none, security := none
  , scaleChanges := none, cloudProvider := none, architectureStyle := none }

/-- A design version committed by a concurrent refinement of `req1`
inside the race window of §5: it claims version 1 between this
execution's read and its insert. -/
def interferenceRow : DesignVersionRow :=
  { id := "dv-race", designRequestId := "req1", version := 1, designData := emptyDesign }

/-- Environment in which the provider throws and a concurrent execution
wins the version-allocation race. -/
def conflictEnv : DesignEnv :=
  { provider := none, midDesignRows := [interferenceRow], midDiagramRows := [] }

/-- Environment with a throwing provider and no concurrent interference. -/
def noInterferenceEnv : DesignEnv :=
  { provider := none, midDesignRows := [], midDiagramRows := [] }

def emptyAppState : AppState :=
  { jobs := [], designQueue := [], diagramQueue := [], cache := [] }



/-- The validation claim C9 describes, formalised from its own words:
the (trimmed) diagram source begins with a recognized diagram-type
declaration.  Declared only to be compared against what
`renderMermaidToSvg` actually checks. -/
def claimBeginsWithDiagramType (s : String) : Bool :=
  validTypes.any (fun t => subAt t.toList (jsTrim s).toList)

/-! ### Further fixtures and claim-side definitions -/

/-- A provider success whose design JSON carries the three arrays the
worker's logging accesses, but lacks `security` and `scaleChanges`. -/
def partialProviderDesign : DesignOutput :=
  { components := some [], dataStores := some [], apis := some []
  , security := none, scaleChanges := none, cloudProvider := none, architectureStyle := none }

def partialProviderResponse : ParsedResponse :=
  { design := some partialProviderDesign, mermaidDiagram := some "flowchart TB" }

/-- Every design queue entry references an existing job row. -/
def queueRefsExistingJobs (st : AppState) : Prop :=
  ∀ e ∈ st.designQueue, ∃ j ∈ st.jobs, j.id = e.jobId

def sampleRequestRow : DesignRequestRow :=
  { id := "req1", userId := "user1", inputType := "PROMPT", promptText := some "Build a chat app"
  , repoUrl := none, constraints := sampleConstraints, scaleProfile := "DAU_1K"
  , detailLevel := "STANDARD", projectIsTemplate := false }

/-- Intermediate states of the two-concurrent-refinements trace used as
the C1 witness: both executions read max 0, the first insert of version
1 succeeds, the second conflicts. -/
def allocS1 : AllocState := { versions := [], pending := [1], completed := 0 }

def allocS2 : AllocState := { versions := [], pending := [1, 1], completed := 0 }

def allocS3 : AllocState := { versions := [1], pending := [1], completed := 1 }

def allocS4 : AllocState := { versions := [1], pending := [], completed := 1 }

/-- A diagram version committed by a concurrent execution for `req1`
inside the race window: it claims diagram version 1 between this
execution's read and its insert. -/
def interferenceDiagramRow : DiagramVersionRow :=
  { id := "dg-race", designRequestId := "req1", designVersionId := none, version := 1
  , mermaidSource := "graph TD", svgContent := none }

/-- Environment in which the provider throws, the design-version insert
is free, and a concurrent execution wins the diagram-version race. -/
def diagramConflictEnv : DesignEnv :=
  { provider := none, midDesignRows := [], midDiagramRows := [interferenceDiagramRow] }

def sampleDiagramJobData : RenderDiagramJobData :=
  { jobId := "job2", payload := { designRequestId := "req1", mermaidSource := "graph TD" } }

def freshDiagramJobRow : JobRow :=
  { id := "job2", type := JobType.RENDER_DIAGRAM, status := JobStatus.PENDING, progress := 0
  , designRequestId := "req1"
  , metadata := some (JobMetadata.diagram { designRequestId := "req1", mermaidSource := "graph TD" })
  , error := none, startedAt := false, completedAt := false }

lemma foldr_max_le {l : List Nat} {c : Nat} (h : ∀ x ∈ l, x ≤ c) : l.foldr max 0 ≤ c := by
  induction l with
  | nil => exact Nat.zero_le c
  | cons a t ih =>
    simp only [List.foldr_cons]
    exact Nat.max_le.mpr ⟨h a (List.mem_cons_self a t), ih fun x hx => h x (List.mem_cons_of_mem a hx)⟩

lemma le_foldr_max {l : List Nat} {x : Nat} (h : x ∈ l) : x ≤ l.foldr max 0 := by
  induction l with
  | nil => cases h
  | cons a t ih =>
    simp only [List.foldr_cons]
    rcases List.mem_cons.mp h with rfl | hx
    · exact Nat.le_max_left x _
    · exact Nat.le_trans (ih hx) (Nat.le_max_right a _)

lemma listMax_of_invariant {s : AllocState} (h : allocInvariant s) :
    listMax s.versions = s.completed := by
  obtain ⟨-, hmem, -⟩ := h
  apply Nat.le_antisymm
  · exact foldr_max_le fun x hx => ((hmem x).mp hx).2
  · rcases Nat.eq_zero_or_pos s.completed with hc | hc
    · simp [hc]
    · exact le_foldr_max ((hmem s.completed).mpr ⟨hc, Nat.le_refl _⟩)

lemma allocStep_invariant {s t : AllocState} (h : allocInvariant s) (hst : AllocStep s t) :
    allocInvariant t := by
  obtain ⟨hnd, hmem, hpend⟩ := h
  cases hst with
  | read =>
    refine ⟨hnd, hmem, ?_⟩
    intro p hp
    rcases List.mem_cons.mp hp with rfl | hp'
    · rw [listMax_of_invariant ⟨hnd, hmem, hpend⟩]
      exact ⟨Nat.succ_le_succ (Nat.zero_le _), Nat.le_refl _⟩
    · exact hpend p hp'
  | insertOk v hp hfree =>
    have hv : 1 ≤ v ∧ v ≤ s.completed + 1 := hpend v hp
    have hv2 : v = s.completed + 1 := by
      rcases Nat.lt_or_ge s.completed v with hlt | hge
      · omega
      · exact absurd ((hmem v).mpr ⟨hv.1, hge⟩) hfree
    refine ⟨List.nodup_cons.mpr ⟨hfree, hnd⟩, ?_, ?_⟩
    · intro x
      dsimp only
      constructor
      · intro hx
        rcases List.mem_cons.mp hx with rfl | hx'
        · omega
        · have := (hmem x).mp hx'
          omega
      · intro hx
        rcases Nat.lt_or_ge x (s.completed + 1) with hlt | hge
        · exact List.mem_cons_of_mem _ ((hmem x).mpr ⟨hx.1, by omega⟩)
        · have : x = v := by omega
          exact this ▸ List.mem_cons_self v s.versions
    · intro p hp'
      dsimp only at hp' ⊢
      have := hpend p (List.mem_of_mem_erase hp')
      omega
  | insertConflict v hp htaken =>
    exact ⟨hnd, hmem, fun p hp' => hpend p (List.mem_of_mem_erase hp')⟩

lemma allocReachable_invariant {s : AllocState} (h : AllocReachable s) : allocInvariant s := by
  induction h with
  | refl =>
    refine ⟨List.nodup_nil, ?_, ?_⟩
    · intro v
      simp only [allocInit, List.not_mem_nil, false_iff]
      omega
    · intro p hp
      simp [allocInit] at hp
  | tail _ hbc ih => exact allocStep_invariant ih hbc

/-- The no-interference sanity fact behind the worker success path: a
fresh `max + 1` value can never collide with a row already in the table
for the same request. -/
lemma designVersionTaken_latest_succ (rows : List DesignVersionRow) (req : String) :
    designVersionTaken rows req (latestDesignVersionNum rows req + 1) = false := by
  rw [designVersionTaken, List.any_eq_false]
  intro r hr
  simp only [Bool.and_eq_true, beq_iff_eq, not_and]
  intro hreq hver
  have hle : r.version ≤ latestDesignVersionNum rows req := by
    apply le_foldr_max
    simp only [latestDesignVersionNum, List.mem_map, List.mem_filter]
    exact ⟨r, ⟨hr, by simp [hreq]⟩, rfl⟩
  omega

lemma diagramVersionTaken_latest_succ (rows : List DiagramVersionRow) (req : String) :
    diagramVersionTaken rows req (latestDiagramVersionNum rows req + 1) = false := by
  rw [diagramVersionTaken, List.any_eq_false]
  intro r hr
  simp only [Bool.and_eq_true, beq_iff_eq, not_and]
  intro hreq hver
  have hle : r.version ≤ latestDiagramVersionNum rows req := by
    apply le_foldr_max
    simp only [latestDiagramVersionNum, List.mem_map, List.mem_filter]
    exact ⟨r, ⟨hr, by simp [hreq]⟩, rfl⟩
  omega

lemma renderMermaidToSvg_svgContent (s : String) : (renderMermaidToSvg s).svgContent = none := by
  unfold renderMermaidToSvg
  split
  · rfl
  · dsimp only
    split <;> rfl

lemma renderMermaidToSvg_mermaidSource (s : String) : (renderMermaidToSvg s).mermaidSource = s := by
  unfold renderMermaidToSvg
  split
  · rfl
  · dsimp only
    split <;> rfl

lemma newDesignDiagramRow_svgContent (env : DesignEnv) (data : GenerateDesignJobData)
    (st : DesignRunState) : (newDesignDiagramRow env data st).svgContent = none := by
  unfold newDesignDiagramRow
  dsimp only
  exact renderMermaidToSvg_svgContent _

lemma newRenderedDiagramRow_svgContent (data : RenderDiagramJobData)
    (rows : List DiagramVersionRow) : (newRenderedDiagramRow data rows).svgContent = none := by
  unfold newRenderedDiagramRow
  dsimp only
  exact renderMermaidToSvg_svgContent _

lemma newRenderedDiagramRow_source (data : RenderDiagramJobData)
    (rows : List DiagramVersionRow) :
    (newRenderedDiagramRow data rows).mermaidSource = data.payload.mermaidSource := by
  unfold newRenderedDiagramRow
  dsimp only
  exact renderMermaidToSvg_mermaidSource _

/-! ### Claim C10 -/

/-- Claim C10: `renderMermaidToSvg` returns a result whose `svgContent`
is null for every input string — including source that passes the
diagram-type validation — and consequently every `DiagramVersion`
persisted by either worker handler carries a null rendered artifact:
each handler execution appends at most one diagram row to the table, and
when it does, that row's `svgContent` is null. -/
theorem rendered_artifact_always_null :
    (∀ s, (renderMermaidToSvg s).svgContent = none) ∧
    (∀ env data st,
      (designWorkerRun env data st).diagramRows = st.diagramRows ∨
      (designWorkerRun env data st).diagramRows = st.diagramRows ++ env.midDiagramRows ∨
      ∃ row, (designWorkerRun env data st).diagramRows = st.diagramRows ++ env.midDiagramRows ++ [row] ∧
        row.svgContent = none) ∧
    (∀ env data job rows,
      (diagramWorkerRun env data job rows).diagramRows = rows ++ env.midDiagramRows ∨
      ∃ row, (diagramWorkerRun env data job rows).diagramRows = rows ++ env.midDiagramRows ++ [row] ∧
        row.svgContent = none) := by
  refine ⟨renderMermaidToSvg_svgContent, ?_, ?_⟩
  · intro env data st
    unfold designWorkerRun
    dsimp only
    split
    · exact Or.inl (by simp [designCatch])
    · split
      · exact Or.inr (Or.inl (by simp [designCatch]))
      · exact Or.inr (Or.inr ⟨newDesignDiagramRow env data st, by simp,
          newDesignDiagramRow_svgContent env data st⟩)
  · intro env data job rows
    unfold diagramWorkerRun
    dsimp only
    split
    · exact Or.inl (by simp)
    · exact Or.inr ⟨newRenderedDiagramRow data rows, by simp,
        newRenderedDiagramRow_svgContent data rows⟩

/-! ### Claim C9 -/


/-- Claim C9 counterexample: the source "junk pie" does not begin with a
recognized diagram-type declaration, yet `renderMermaidToSvg` accepts it
without any error, because the code only checks that the first line
contains a type name as a substring (worker/index.ts lines 319-322).
The validation the claim describes would have produced the
descriptive-error outcome here. -/
theorem renderer_validation_counterexample :
    claimBeginsWithDiagramType "junk pie" = false ∧
    (renderMermaidToSvg "junk pie").error = none ∧
    (renderMermaidToSvg "junk pie").svgContent = none := by
  decide

/-- Claim C9 (amended): `renderMermaidToSvg` validates that the first
line of the trimmed source contains a recognized diagram-type name as a
case-insensitive substring (not that the source begins with such a
declaration); for empty source, and for source whose first line contains
no recognized type, it returns a result with the original source, a null
artifact and a descriptive error instead of throwing; and the worker
treats any render result as storable: the `DiagramVersion` is persisted
with a null artifact and the job reaches COMPLETED. -/
theorem renderer_invalid_source_storable :
    (∀ s, (renderMermaidToSvg s).mermaidSource = s ∧ (renderMermaidToSvg s).svgContent = none) ∧
    (∀ s, jsTrim s = "" → (renderMermaidToSvg s).error = some "Empty diagram source") ∧
    (∀ s, jsTrim s ≠ "" →
      ((renderMermaidToSvg s).error = none ↔
        validTypes.any (fun t => strIncludes (jsToLower (firstLineOf (jsTrim s))) (jsToLower t)) = true)) ∧
    (∀ data job rows,
      (diagramWorkerRun { midDiagramRows := [] } data job rows).job.status = JobStatus.COMPLETED ∧
      (diagramWorkerRun { midDiagramRows := [] } data job rows).rethrown = none ∧
      ∃ row, (diagramWorkerRun { midDiagramRows := [] } data job rows).diagramRows = rows ++ [row] ∧
        row.svgContent = none ∧ row.mermaidSource = data.payload.mermaidSource) := by
  refine ⟨fun s => ⟨renderMermaidToSvg_mermaidSource s, renderMermaidToSvg_svgContent s⟩, ?_, ?_, ?_⟩
  · intro s hs
    unfold renderMermaidToSvg
    rw [if_pos (by simp [hs])]
  · intro s hs
    have hcond : ¬ ((jsTrim s == "") = true) := by simpa using hs
    unfold renderMermaidToSvg
    rw [if_neg hcond]
    dsimp only
    cases hval : validTypes.any (fun t => strIncludes (jsToLower (firstLineOf (jsTrim s))) (jsToLower t)) <;>
      simp
  · intro data job rows
    have hfree : ¬ (diagramVersionTaken (rows ++ ([] : List DiagramVersionRow))
        data.payload.designRequestId
        (latestDiagramVersionNum rows data.payload.designRequestId + 1) = true) := by
      rw [List.append_nil, diagramVersionTaken_latest_succ]
      simp
    unfold diagramWorkerRun
    dsimp only
    rw [if_neg hfree]
    refine ⟨rfl, rfl, newRenderedDiagramRow data rows, by simp,
      newRenderedDiagramRow_svgContent data rows, newRenderedDiagramRow_source data rows⟩


/-! ### Worker branch-shape lemmas -/

lemma designWorkerRun_conflict1 (env : DesignEnv) (data : GenerateDesignJobData)
    (st : DesignRunState)
    (h : designVersionTaken (st.designRows ++ env.midDesignRows) data.payload.designRequestId
      (latestDesignVersionNum st.designRows data.payload.designRequestId + 1) = true) :
    designWorkerRun env data st =
      designCatch [designW1 data.payload, designW2 data.payload, designW3 data.payload, designW4]
        (designProcessingRow st.job) (st.designRows ++ env.midDesignRows) st.diagramRows
        designUniqueViolation := by
  unfold designWorkerRun
  dsimp only
  rw [if_pos h]

lemma designWorkerRun_conflict2 (env : DesignEnv) (data : GenerateDesignJobData)
    (st : DesignRunState)
    (h1 : designVersionTaken (st.designRows ++ env.midDesignRows) data.payload.designRequestId
      (latestDesignVersionNum st.designRows data.payload.designRequestId + 1) = false)
    (h2 : diagramVersionTaken (st.diagramRows ++ env.midDiagramRows) data.payload.designRequestId
      (latestDiagramVersionNum st.diagramRows data.payload.designRequestId + 1) = true) :
    designWorkerRun env data st =
      designCatch
        [designW1 data.payload, designW2 data.payload, designW3 data.payload, designW4, designW5]
        (designProcessingRow st.job)
        ((st.designRows ++ env.midDesignRows) ++ [newDesignRow env data st])
        (st.diagramRows ++ env.midDiagramRows) diagramUniqueViolation := by
  unfold designWorkerRun
  dsimp only
  rw [if_neg (by simp [h1]), if_pos h2]

lemma designWorkerRun_success (env : DesignEnv) (data : GenerateDesignJobData)
    (st : DesignRunState)
    (h1 : designVersionTaken (st.designRows ++ env.midDesignRows) data.payload.designRequestId
      (latestDesignVersionNum st.designRows data.payload.designRequestId + 1) = false)
    (h2 : diagramVersionTaken (st.diagramRows ++ env.midDiagramRows) data.payload.designRequestId
      (latestDiagramVersionNum st.diagramRows data.payload.designRequestId + 1) = false) :
    designWorkerRun env data st =
      { cacheWrites := [designW1 data.payload, designW2 data.payload, designW3 data.payload
          , designW4, designW5, designWDone]
      , job := completedRow (designProcessingRow st.job)
      , designRows := (st.designRows ++ env.midDesignRows) ++ [newDesignRow env data st]
      , diagramRows := (st.diagramRows ++ env.midDiagramRows) ++ [newDesignDiagramRow env data st]
      , rethrown := none } := by
  unfold designWorkerRun
  dsimp only
  rw [if_neg (by simp [h1]), if_neg (by simp [h2])]

lemma diagramWorkerRun_conflict (env : DiagramEnv) (data : RenderDiagramJobData) (job : JobRow)
    (rows : List DiagramVersionRow)
    (h : diagramVersionTaken (rows ++ env.midDiagramRows) data.payload.designRequestId
      (latestDiagramVersionNum rows data.payload.designRequestId + 1) = true) :
    diagramWorkerRun env data job rows =
      { cacheWrites := [diagramW1,
          { status := JobStatus.FAILED, progress := 0, message := diagramUniqueViolation }]
      , job := { diagramProcessingRow job with
                 status := JobStatus.FAILED, error := some diagramUniqueViolation }
      , diagramRows := rows ++ env.midDiagramRows
      , rethrown := some diagramUniqueViolation } := by
  unfold diagramWorkerRun
  dsimp only
  rw [if_pos h]

lemma diagramWorkerRun_success (env : DiagramEnv) (data : RenderDiagramJobData) (job : JobRow)
    (rows : List DiagramVersionRow)
    (h : diagramVersionTaken (rows ++ env.midDiagramRows) data.payload.designRequestId
      (latestDiagramVersionNum rows data.payload.designRequestId + 1) = false) :
    diagramWorkerRun env data job rows =
      { cacheWrites := [diagramW1, diagramWDone]
      , job := completedRow (diagramProcessingRow job)
      , diagramRows := (rows ++ env.midDiagramRows) ++ [newRenderedDiagramRow data rows]
      , rethrown := none } := by
  unfold diagramWorkerRun
  dsimp only
  rw [if_neg (by simp [h])]


/-! ### Claim C6 -/

/-- Claim C6 counterexample: a provider success whose design JSON lacks
only the `security` and `scaleChanges` arrays is returned as-is — the
worker's validation checks `parsed.design` and `parsed.mermaidDiagram`
and its logging only dereferences `components`, `dataStores` and `apis`
— so the returned design does not always have all structural arrays
present (while the mock fallback, not used here, always populates
`security`). -/
theorem generateDesign_missing_arrays_counterexample :
    (generateDesign sampleInput (some partialProviderResponse)).design.security = none ∧
    (generateDesign sampleInput (some partialProviderResponse)).design.scaleChanges = none ∧
    ((generateMockDesign sampleInput).design.security).isSome = true :=
  ⟨rfl, rfl, rfl⟩

/-- Claim C6 (amended): `generateDesign` is total: a provider failure,
empty response or unparsable JSON (`provider = none`), a parsed response
missing `design` or `mermaidDiagram`, or one whose design lacks the
`components`, `dataStores` or `apis` arrays, all fall back to the
deterministic constraint-aware mock design; the mock's components array
is non-empty (three components); and a design-generation job whose
provider always throws still reaches COMPLETED with nothing re-thrown
(absent version-race interference).  However a provider success missing
only the `security` or `scaleChanges` arrays is returned as-is, so not
every returned design has all structural arrays present. -/
theorem generateDesign_total_with_fallback :
    (∀ input, generateDesign input none = generateMockDesign input) ∧
    (∀ input parsed, parsed.design = none ∨ parsed.mermaidDiagram = none ∨
        (∃ d, parsed.design = some d ∧
          (d.components = none ∨ d.dataStores = none ∨ d.apis = none)) →
      generateDesign input (some parsed) = generateMockDesign input) ∧
    (∀ input, ((generateMockDesign input).design.components.getD []).length = 3) ∧
    (∀ data st,
      (designWorkerRun noInterferenceEnv data st).job.status = JobStatus.COMPLETED ∧
      (designWorkerRun noInterferenceEnv data st).rethrown = none) := by
  refine ⟨fun input => rfl, ?_, fun input => rfl, ?_⟩
  · intro input parsed h
    unfold generateDesign
    dsimp only
    rcases h with h | h | ⟨d, hd, h⟩
    · rw [h]
    · rw [h]
      cases parsed.design <;> rfl
    · rw [hd]
      cases hm : parsed.mermaidDiagram with
      | none => rfl
      | some m =>
        dsimp only
        rcases h with h | h | h
        · rw [h]
        · rw [h]
          cases d.components <;> cases d.apis <;> rfl
        · rw [h]
          cases d.components <;> cases d.dataStores <;> rfl
  · intro data st
    have h1 : designVersionTaken (st.designRows ++ noInterferenceEnv.midDesignRows)
        data.payload.designRequestId
        (latestDesignVersionNum st.designRows data.payload.designRequestId + 1) = false := by
      show designVersionTaken (st.designRows ++ []) _ _ = false
      rw [List.append_nil]
      exact designVersionTaken_latest_succ _ _
    have h2 : diagramVersionTaken (st.diagramRows ++ noInterferenceEnv.midDiagramRows)
        data.payload.designRequestId
        (latestDiagramVersionNum st.diagramRows data.payload.designRequestId + 1) = false := by
      show diagramVersionTaken (st.diagramRows ++ []) _ _ = false
      rw [List.append_nil]
      exact diagramVersionTaken_latest_succ _ _
    rw [designWorkerRun_success noInterferenceEnv data st h1 h2]
    exact ⟨rfl, rfl⟩

/-! ### Claim C2 -/

/-- Claim C2 counterexample: a single version conflict — in a state
where an immediate internal retry of the read-max-then-insert allocation
would succeed, since version 2 is free — is not retried: the handler
marks the job FAILED and surfaces the conflict to the queue at once. -/
theorem version_conflict_retry_counterexample :
    (designWorkerRun conflictEnv sampleJobData freshRunState).rethrown =
      some designUniqueViolation ∧
    (designWorkerRun conflictEnv sampleJobData freshRunState).job.status = JobStatus.FAILED ∧
    designVersionTaken (freshRunState.designRows ++ conflictEnv.midDesignRows) "req1"
      (latestDesignVersionNum (freshRunState.designRows ++ conflictEnv.midDesignRows) "req1" + 1) =
      false := by
  decide

/-- Claim C2 (amended): a version-conflict error — the uniqueness
violation on the (request, version) pair raised while persisting a new
`DesignVersion` or `DiagramVersion`, in either worker handler — is not
retried internally: each handler performs every read-max-then-insert
allocation exactly once per execution, the first conflict lands in the
single top-level catch, the job is marked FAILED, and the conflict is
re-raised to the queue, whose at-least-once re-delivery of the whole
handler is the only retry mechanism.  The three conjuncts cover the
three conflict sites: the design worker's design-version insert, the
design worker's diagram-version insert (where the `DesignVersion`
committed earlier in the same execution remains persisted), and the
diagram worker's insert. -/
theorem version_conflict_not_retried :
    (∀ env data st,
      designVersionTaken (st.designRows ++ env.midDesignRows) data.payload.designRequestId
        (latestDesignVersionNum st.designRows data.payload.designRequestId + 1) = true →
      (designWorkerRun env data st).rethrown = some designUniqueViolation ∧
      (designWorkerRun env data st).job.status = JobStatus.FAILED ∧
      (designWorkerRun env data st).designRows = st.designRows ++ env.midDesignRows) ∧
    (∀ env data st,
      designVersionTaken (st.designRows ++ env.midDesignRows) data.payload.designRequestId
        (latestDesignVersionNum st.designRows data.payload.designRequestId + 1) = false →
      diagramVersionTaken (st.diagramRows ++ env.midDiagramRows) data.payload.designRequestId
        (latestDiagramVersionNum st.diagramRows data.payload.designRequestId + 1) = true →
      (designWorkerRun env data st).rethrown = some diagramUniqueViolation ∧
      (designWorkerRun env data st).job.status = JobStatus.FAILED ∧
      (designWorkerRun env data st).designRows =
        (st.designRows ++ env.midDesignRows) ++ [newDesignRow env data st]) ∧
    (∀ env data job rows,
      diagramVersionTaken (rows ++ env.midDiagramRows) data.payload.designRequestId
        (latestDiagramVersionNum rows data.payload.designRequestId + 1) = true →
      (diagramWorkerRun env data job rows).rethrown = some diagramUniqueViolation ∧
      (diagramWorkerRun env data job rows).job.status = JobStatus.FAILED ∧
      (diagramWorkerRun env data job rows).diagramRows = rows ++ env.midDiagramRows) := by
  refine ⟨?_, ?_, ?_⟩
  · intro env data st h
    rw [designWorkerRun_conflict1 env data st h]
    exact ⟨rfl, rfl, rfl⟩
  · intro env data st h1 h2
    rw [designWorkerRun_conflict2 env data st h1 h2]
    exact ⟨rfl, rfl, rfl⟩
  · intro env data job rows h
    rw [diagramWorkerRun_conflict env data job rows h]
    exact ⟨rfl, rfl, rfl⟩

/-- Claim C2 witness: a design-version-insert conflict, a
diagram-version-insert conflict inside a design-generation run, and a
diagram-worker insert conflict, each at a concrete interfered state. -/
theorem version_conflict_not_retried_witness :
    ((designWorkerRun conflictEnv sampleJobData freshRunState).rethrown =
        some designUniqueViolation ∧
      (designWorkerRun conflictEnv sampleJobData freshRunState).job.status = JobStatus.FAILED ∧
      (designWorkerRun conflictEnv sampleJobData freshRunState).designRows =
        freshRunState.designRows ++ conflictEnv.midDesignRows) ∧
    ((designWorkerRun diagramConflictEnv sampleJobData freshRunState).rethrown =
        some diagramUniqueViolation ∧
      (designWorkerRun diagramConflictEnv sampleJobData freshRunState).job.status =
        JobStatus.FAILED ∧
      (designWorkerRun diagramConflictEnv sampleJobData freshRunState).designRows =
        (freshRunState.designRows ++ diagramConflictEnv.midDesignRows) ++
          [newDesignRow diagramConflictEnv sampleJobData freshRunState]) ∧
    ((diagramWorkerRun { midDiagramRows := [interferenceDiagramRow] } sampleDiagramJobData
        freshDiagramJobRow []).rethrown = some diagramUniqueViolation ∧
      (diagramWorkerRun { midDiagramRows := [interferenceDiagramRow] } sampleDiagramJobData
        freshDiagramJobRow []).job.status = JobStatus.FAILED ∧
      (diagramWorkerRun { midDiagramRows := [interferenceDiagramRow] } sampleDiagramJobData
        freshDiagramJobRow []).diagramRows = [] ++ [interferenceDiagramRow]) :=
  ⟨version_conflict_not_retried.1 conflictEnv sampleJobData freshRunState (by decide),
   version_conflict_not_retried.2.1 diagramConflictEnv sampleJobData freshRunState
     (by decide) (by decide),
   version_conflict_not_retried.2.2 { midDiagramRows := [interferenceDiagramRow] }
     sampleDiagramJobData freshDiagramJobRow [] (by decide)⟩


/-! ### Claim C3 -/

/-- Claim C3 counterexample: on a failing design-generation execution
the durable job row ends FAILED with the error recorded, but its
progress is the 10 written when processing started — the catch block's
`db.job.update` (worker/index.ts lines 159-166) writes status, error and
completedAt but no progress, so progress is not reset to 0 in the
durable store (the Status Cache write, by contrast, carries 0). -/
theorem failed_row_progress_counterexample :
    (designWorkerRun conflictEnv sampleJobData freshRunState).job.status = JobStatus.FAILED ∧
    (designWorkerRun conflictEnv sampleJobData freshRunState).job.progress = 10 ∧
    (designWorkerRun conflictEnv sampleJobData freshRunState).cacheWrites.getLast? =
      some { status := JobStatus.FAILED, progress := 0, message := designUniqueViolation } := by
  decide

/-- Claim C3 (amended): any exception raised during a worker execution
is caught exactly once at the top level; the handler marks the job
FAILED with the human-readable error message in both the Status Cache
and the durable Job row, resets progress to 0 in the Status Cache only —
the durable row keeps its last written progress (10 for the design
worker, the pre-existing value for the diagram worker) — and re-raises
the exception to the queue so the queue's retry/backoff policy applies. -/
theorem failure_marks_failed_both_stores :
    (∀ env data st msg, (designWorkerRun env data st).rethrown = some msg →
      (designWorkerRun env data st).job.status = JobStatus.FAILED ∧
      (designWorkerRun env data st).job.error = some msg ∧
      (designWorkerRun env data st).cacheWrites.getLast? =
        some { status := JobStatus.FAILED, progress := 0, message := msg } ∧
      (designWorkerRun env data st).job.progress = 10) ∧
    (∀ env data job rows msg, (diagramWorkerRun env data job rows).rethrown = some msg →
      (diagramWorkerRun env data job rows).job.status = JobStatus.FAILED ∧
      (diagramWorkerRun env data job rows).job.error = some msg ∧
      (diagramWorkerRun env data job rows).cacheWrites.getLast? =
        some { status := JobStatus.FAILED, progress := 0, message := msg } ∧
      (diagramWorkerRun env data job rows).job.progress = job.progress) := by
  constructor
  · intro env data st msg hre
    cases h1 : designVersionTaken (st.designRows ++ env.midDesignRows)
        data.payload.designRequestId
        (latestDesignVersionNum st.designRows data.payload.designRequestId + 1) with
    | true =>
      rw [designWorkerRun_conflict1 env data st h1] at hre ⊢
      have hmsg : designUniqueViolation = msg := by
        simpa [designCatch] using hre
      subst hmsg
      refine ⟨rfl, rfl, ?_, rfl⟩
      simp [designCatch, List.getLast?_concat]
    | false =>
      cases h2 : diagramVersionTaken (st.diagramRows ++ env.midDiagramRows)
          data.payload.designRequestId
          (latestDiagramVersionNum st.diagramRows data.payload.designRequestId + 1) with
      | true =>
        rw [designWorkerRun_conflict2 env data st h1 h2] at hre ⊢
        have hmsg : diagramUniqueViolation = msg := by
          simpa [designCatch] using hre
        subst hmsg
        refine ⟨rfl, rfl, ?_, rfl⟩
        simp [designCatch, List.getLast?_concat]
      | false =>
        rw [designWorkerRun_success env data st h1 h2] at hre
        exact absurd hre (by simp)
  · intro env data job rows msg hre
    cases h : diagramVersionTaken (rows ++ env.midDiagramRows) data.payload.designRequestId
        (latestDiagramVersionNum rows data.payload.designRequestId + 1) with
    | true =>
      rw [diagramWorkerRun_conflict env data job rows h] at hre ⊢
      have hmsg : diagramUniqueViolation = msg := by
        simpa using hre
      subst hmsg
      exact ⟨rfl, rfl, rfl, rfl⟩
    | false =>
      rw [diagramWorkerRun_success env data job rows h] at hre
      exact absurd hre (by simp)

/-- Claim C3 witness. -/
theorem failure_marks_failed_both_stores_witness :
    (designWorkerRun conflictEnv sampleJobData freshRunState).job.status = JobStatus.FAILED ∧
    (designWorkerRun conflictEnv sampleJobData freshRunState).job.error =
      some designUniqueViolation ∧
    (designWorkerRun conflictEnv sampleJobData freshRunState).cacheWrites.getLast? =
      some { status := JobStatus.FAILED, progress := 0, message := designUniqueViolation } ∧
    (designWorkerRun conflictEnv sampleJobData freshRunState).job.progress = 10 :=
  failure_marks_failed_both_stores.1 conflictEnv sampleJobData freshRunState
    designUniqueViolation (by decide)

/-! ### Claim C4 -/

/-- Claim C4 counterexample: for a FAILED design-generation job with its
cache record still present, the cache branch of `getStatus` serves
{FAILED, 0} while the durable fallback serves {FAILED, 10}: the two
branches do not agree on progress for this terminal job. -/
theorem status_views_divergence_counterexample :
    (designWorkerRun conflictEnv sampleJobData freshRunState).job.status = JobStatus.FAILED ∧
    getStatusView (designWorkerRun conflictEnv sampleJobData freshRunState).job
        ((designWorkerRun conflictEnv sampleJobData freshRunState).cacheWrites.getLast?) ≠
      getStatusView (designWorkerRun conflictEnv sampleJobData freshRunState).job none := by
  decide

/-- Claim C4 (amended): for COMPLETED jobs the cache branch and the
durable-fallback branch of `getStatus` serve the same {status, progress}
pair; for FAILED jobs both branches agree on status FAILED, and the
cache branch serves progress 0, but the durable row's progress is
whatever was last persisted there (10 for a failed design run), so the
progress components can disagree. -/
theorem terminal_status_views :
    (∀ env data st last, (designWorkerRun env data st).rethrown = none →
      (designWorkerRun env data st).cacheWrites.getLast? = some last →
      getStatusView (designWorkerRun env data st).job (some last) =
        getStatusView (designWorkerRun env data st).job none) ∧
    (∀ env data job rows last, (diagramWorkerRun env data job rows).rethrown = none →
      (diagramWorkerRun env data job rows).cacheWrites.getLast? = some last →
      getStatusView (diagramWorkerRun env data job rows).job (some last) =
        getStatusView (diagramWorkerRun env data job rows).job none) ∧
    (∀ env data st last msg, (designWorkerRun env data st).rethrown = some msg →
      (designWorkerRun env data st).cacheWrites.getLast? = some last →
      (getStatusView (designWorkerRun env data st).job (some last)).status = JobStatus.FAILED ∧
      (getStatusView (designWorkerRun env data st).job none).status = JobStatus.FAILED ∧
      (getStatusView (designWorkerRun env data st).job (some last)).progress = 0) ∧
    (∀ env data job rows last msg, (diagramWorkerRun env data job rows).rethrown = some msg →
      (diagramWorkerRun env data job rows).cacheWrites.getLast? = some last →
      (getStatusView (diagramWorkerRun env data job rows).job (some last)).status =
        JobStatus.FAILED ∧
      (getStatusView (diagramWorkerRun env data job rows).job none).status = JobStatus.FAILED ∧
      (getStatusView (diagramWorkerRun env data job rows).job (some last)).progress = 0) := by
  refine ⟨?_, ?_, ?_, ?_⟩
  · intro env data st last hre hlast
    cases h1 : designVersionTaken (st.designRows ++ env.midDesignRows)
        data.payload.designRequestId
        (latestDesignVersionNum st.designRows data.payload.designRequestId + 1) with
    | true =>
      rw [designWorkerRun_conflict1 env data st h1] at hre
      exact absurd hre (by simp [designCatch])
    | false =>
      cases h2 : diagramVersionTaken (st.diagramRows ++ env.midDiagramRows)
          data.payload.designRequestId
          (latestDiagramVersionNum st.diagramRows data.payload.designRequestId + 1) with
      | true =>
        rw [designWorkerRun_conflict2 env data st h1 h2] at hre
        exact absurd hre (by simp [designCatch])
      | false =>
        rw [designWorkerRun_success env data st h1 h2] at hlast ⊢
        have : designWDone = last := by
          simpa using hlast
        subst this
        rfl
  · intro env data job rows last hre hlast
    cases h : diagramVersionTaken (rows ++ env.midDiagramRows) data.payload.designRequestId
        (latestDiagramVersionNum rows data.payload.designRequestId + 1) with
    | true =>
      rw [diagramWorkerRun_conflict env data job rows h] at hre
      exact absurd hre (by simp)
    | false =>
      rw [diagramWorkerRun_success env data job rows h] at hlast ⊢
      have : diagramWDone = last := by
        simpa using hlast
      subst this
      rfl
  · intro env data st last msg hre hlast
    cases h1 : designVersionTaken (st.designRows ++ env.midDesignRows)
        data.payload.designRequestId
        (latestDesignVersionNum st.designRows data.payload.designRequestId + 1) with
    | true =>
      rw [designWorkerRun_conflict1 env data st h1] at hlast ⊢
      have : { status := JobStatus.FAILED, progress := 0, message := designUniqueViolation } = last := by
        simpa [designCatch, List.getLast?_concat] using hlast
      subst this
      exact ⟨rfl, rfl, rfl⟩
    | false =>
      cases h2 : diagramVersionTaken (st.diagramRows ++ env.midDiagramRows)
          data.payload.designRequestId
          (latestDiagramVersionNum st.diagramRows data.payload.designRequestId + 1) with
      | true =>
        rw [designWorkerRun_conflict2 env data st h1 h2] at hlast ⊢
        have : { status := JobStatus.FAILED, progress := 0, message := diagramUniqueViolation } = last := by
          simpa [designCatch, List.getLast?_concat] using hlast
        subst this
        exact ⟨rfl, rfl, rfl⟩
      | false =>
        rw [designWorkerRun_success env data st h1 h2] at hre
        exact absurd hre (by simp)
  · intro env data job rows last msg hre hlast
    cases h : diagramVersionTaken (rows ++ env.midDiagramRows) data.payload.designRequestId
        (latestDiagramVersionNum rows data.payload.designRequestId + 1) with
    | true =>
      rw [diagramWorkerRun_conflict env data job rows h] at hlast ⊢
      have : { status := JobStatus.FAILED, progress := 0, message := diagramUniqueViolation } = last := by
        simpa using hlast
      subst this
      exact ⟨rfl, rfl, rfl⟩
    | false =>
      rw [diagramWorkerRun_success env data job rows h] at hre
      exact absurd hre (by simp)

/-- Claim C4 witness. -/
theorem terminal_status_views_witness :
    getStatusView (designWorkerRun noInterferenceEnv sampleJobData freshRunState).job
        (some designWDone) =
      getStatusView (designWorkerRun noInterferenceEnv sampleJobData freshRunState).job none :=
  terminal_status_views.1 noInterferenceEnv sampleJobData freshRunState designWDone
    (by decide) (by decide)


/-! ### Claim C8 -/

/-- Claim C8 counterexample: the failing design execution writes the
progress sequence 10, 30, 50, 70 and then 0 with the FAILED status —
the full sequence of progress values written for the job is not
non-decreasing on the FAILED path. -/
theorem progress_not_monotone_counterexample :
    (designWorkerRun conflictEnv sampleJobData freshRunState).cacheWrites.map
        (fun w => w.progress) = [10, 30, 50, 70, 0] ∧
    ¬ List.Chain' (· ≤ ·)
      ((designWorkerRun conflictEnv sampleJobData freshRunState).cacheWrites.map
        (fun w => w.progress)) ∧
    (designWorkerRun conflictEnv sampleJobData freshRunState).job.status = JobStatus.FAILED := by
  have hmap : (designWorkerRun conflictEnv sampleJobData freshRunState).cacheWrites.map
      (fun w => w.progress) = [10, 30, 50, 70, 0] := by decide
  refine ⟨hmap, ?_, by decide⟩
  rw [hmap]
  simp [List.chain'_cons]

/-- Claim C8 (amended): within a single execution of either worker
handler every status written before the final write is PROCESSING (the
handler never writes PENDING, and the final write is terminal), the
progress values of those PROCESSING writes are non-decreasing (10, 30,
50, 70, 85 for the design worker; 50 for the diagram worker), a
completed execution writes exactly the PROCESSING sequence followed by
COMPLETED at 100, and a failing execution ends with a final FAILED write
at progress 0 — so on the FAILED path the overall sequence drops at its
last element rather than remaining non-decreasing. -/
theorem progress_sequence_shape :
    (∀ env data st, ∀ w ∈ (designWorkerRun env data st).cacheWrites.dropLast,
      w.status = JobStatus.PROCESSING) ∧
    (∀ env data st, List.Chain' (· ≤ ·)
      (((designWorkerRun env data st).cacheWrites.dropLast).map (fun w => w.progress))) ∧
    (∀ env data st, (designWorkerRun env data st).rethrown = none →
      (designWorkerRun env data st).cacheWrites.map (fun w => (w.status, w.progress)) =
        [(JobStatus.PROCESSING, 10), (JobStatus.PROCESSING, 30), (JobStatus.PROCESSING, 50),
         (JobStatus.PROCESSING, 70), (JobStatus.PROCESSING, 85), (JobStatus.COMPLETED, 100)]) ∧
    (∀ env data st msg, (designWorkerRun env data st).rethrown = some msg →
      (designWorkerRun env data st).cacheWrites.getLast? =
        some { status := JobStatus.FAILED, progress := 0, message := msg }) ∧
    (∀ env data job rows, ∀ w ∈ (diagramWorkerRun env data job rows).cacheWrites.dropLast,
      w.status = JobStatus.PROCESSING ∧ w.progress = 50) ∧
    (∀ env data job rows, (diagramWorkerRun env data job rows).rethrown = none →
      (diagramWorkerRun env data job rows).cacheWrites.map (fun w => (w.status, w.progress)) =
        [(JobStatus.PROCESSING, 50), (JobStatus.COMPLETED, 100)]) ∧
    (∀ env data job rows msg, (diagramWorkerRun env data job rows).rethrown = some msg →
      (diagramWorkerRun env data job rows).cacheWrites.getLast? =
        some { status := JobStatus.FAILED, progress := 0, message := msg }) := by
  have hdesign : ∀ (env : DesignEnv) (data : GenerateDesignJobData) (st : DesignRunState),
      (designWorkerRun env data st).cacheWrites =
          [designW1 data.payload, designW2 data.payload, designW3 data.payload, designW4,
            { status := JobStatus.FAILED, progress := 0, message := designUniqueViolation }] ∨
        (designWorkerRun env data st).cacheWrites =
          [designW1 data.payload, designW2 data.payload, designW3 data.payload, designW4,
            designW5,
            { status := JobStatus.FAILED, progress := 0, message := diagramUniqueViolation }] ∨
        (designWorkerRun env data st).cacheWrites =
          [designW1 data.payload, designW2 data.payload, designW3 data.payload, designW4,
            designW5, designWDone] := by
    intro env data st
    cases h1 : designVersionTaken (st.designRows ++ env.midDesignRows)
        data.payload.designRequestId
        (latestDesignVersionNum st.designRows data.payload.designRequestId + 1) with
    | true =>
      rw [designWorkerRun_conflict1 env data st h1]
      exact Or.inl rfl
    | false =>
      cases h2 : diagramVersionTaken (st.diagramRows ++ env.midDiagramRows)
          data.payload.designRequestId
          (latestDiagramVersionNum st.diagramRows data.payload.designRequestId + 1) with
      | true =>
        rw [designWorkerRun_conflict2 env data st h1 h2]
        exact Or.inr (Or.inl rfl)
      | false =>
        rw [designWorkerRun_success env data st h1 h2]
        exact Or.inr (Or.inr rfl)
  refine ⟨?_, ?_, ?_, ?_, ?_, ?_, ?_⟩
  · intro env data st w hw
    rcases hdesign env data st with h | h | h <;> rw [h] at hw <;>
      simp only [List.dropLast, List.mem_cons, List.not_mem_nil, or_false] at hw <;>
      rcases hw with rfl | rfl | rfl | rfl | rfl <;>
      rfl
  · intro env data st
    rcases hdesign env data st with h | h | h <;> rw [h] <;>
      simp [designW1, designW2, designW3, designW4, designW5]
  · intro env data st hre
    cases h1 : designVersionTaken (st.designRows ++ env.midDesignRows)
        data.payload.designRequestId
        (latestDesignVersionNum st.designRows data.payload.designRequestId + 1) with
    | true =>
      rw [designWorkerRun_conflict1 env data st h1] at hre
      exact absurd hre (by simp [designCatch])
    | false =>
      cases h2 : diagramVersionTaken (st.diagramRows ++ env.midDiagramRows)
          data.payload.designRequestId
          (latestDiagramVersionNum st.diagramRows data.payload.designRequestId + 1) with
      | true =>
        rw [designWorkerRun_conflict2 env data st h1 h2] at hre
        exact absurd hre (by simp [designCatch])
      | false =>
        rw [designWorkerRun_success env data st h1 h2]
        simp [designW1, designW2, designW3, designW4, designW5, designWDone]
  · intro env data st msg hre
    cases h1 : designVersionTaken (st.designRows ++ env.midDesignRows)
        data.payload.designRequestId
        (latestDesignVersionNum st.designRows data.payload.designRequestId + 1) with
    | true =>
      rw [designWorkerRun_conflict1 env data st h1] at hre ⊢
      have hmsg : designUniqueViolation = msg := by
        simpa [designCatch] using hre
      subst hmsg
      simp [designCatch, List.getLast?_concat]
    | false =>
      cases h2 : diagramVersionTaken (st.diagramRows ++ env.midDiagramRows)
          data.payload.designRequestId
          (latestDiagramVersionNum st.diagramRows data.payload.designRequestId + 1) with
      | true =>
        rw [designWorkerRun_conflict2 env data st h1 h2] at hre ⊢
        have hmsg : diagramUniqueViolation = msg := by
          simpa [designCatch] using hre
        subst hmsg
        simp [designCatch, List.getLast?_concat]
      | false =>
        rw [designWorkerRun_success env data st h1 h2] at hre
        exact absurd hre (by simp)
  · intro env data job rows w hw
    cases h : diagramVersionTaken (rows ++ env.midDiagramRows) data.payload.designRequestId
        (latestDiagramVersionNum rows data.payload.designRequestId + 1) with
    | true =>
      rw [diagramWorkerRun_conflict env data job rows h] at hw
      simp only [List.dropLast, List.mem_cons, List.not_mem_nil, or_false] at hw
      subst hw
      exact ⟨rfl, rfl⟩
    | false =>
      rw [diagramWorkerRun_success env data job rows h] at hw
      simp only [List.dropLast, List.mem_cons, List.not_mem_nil, or_false] at hw
      subst hw
      exact ⟨rfl, rfl⟩
  · intro env data job rows hre
    cases h : diagramVersionTaken (rows ++ env.midDiagramRows) data.payload.designRequestId
        (latestDiagramVersionNum rows data.payload.designRequestId + 1) with
    | true =>
      rw [diagramWorkerRun_conflict env data job rows h] at hre
      exact absurd hre (by simp)
    | false =>
      rw [diagramWorkerRun_success env data job rows h]
      rfl
  · intro env data job rows msg hre
    cases h : diagramVersionTaken (rows ++ env.midDiagramRows) data.payload.designRequestId
        (latestDiagramVersionNum rows data.payload.designRequestId + 1) with
    | true =>
      rw [diagramWorkerRun_conflict env data job rows h] at hre ⊢
      have hmsg : diagramUniqueViolation = msg := by
        simpa using hre
      subst hmsg
      rfl
    | false =>
      rw [diagramWorkerRun_success env data job rows h] at hre
      exact absurd hre (by simp)

/-- Claim C8 witness. -/
theorem progress_sequence_shape_witness :
    (designWorkerRun noInterferenceEnv sampleJobData freshRunState).cacheWrites.map
        (fun w => (w.status, w.progress)) =
      [(JobStatus.PROCESSING, 10), (JobStatus.PROCESSING, 30), (JobStatus.PROCESSING, 50),
       (JobStatus.PROCESSING, 70), (JobStatus.PROCESSING, 85), (JobStatus.COMPLETED, 100)] :=
  progress_sequence_shape.2.2.1 noInterferenceEnv sampleJobData freshRunState (by decide)


/-! ### Claim C5 -/

/-- Claim C5: `enqueueDesignGeneration` appends exactly one PENDING job
row with progress 0 and the payload as metadata, pushes exactly one
design-queue entry carrying the job id and the payload (the diagram
queue untouched), seeds the Status Cache for the new job id with
{PENDING, 0, "Job queued"}, and returns the new job id.  If the durable
job create fails, the whole call fails with the thrown error and the
state is untouched — in particular nothing was pushed — and in either
case the invariant that every design-queue entry references an existing
job row is preserved. -/
theorem enqueueDesignGeneration_effects :
    (∀ newJobId data st,
      (enqueueDesignGeneration false newJobId data st).1 = Except.ok newJobId ∧
      (enqueueDesignGeneration false newJobId data st).2.jobs = st.jobs ++
        [{ id := newJobId, type := JobType.GENERATE_DESIGN, status := JobStatus.PENDING
         , progress := 0, designRequestId := data.designRequestId
         , metadata := some (JobMetadata.design data), error := none
         , startedAt := false, completedAt := false }] ∧
      (enqueueDesignGeneration false newJobId data st).2.designQueue =
        st.designQueue ++ [{ jobId := newJobId, payload := data }] ∧
      (enqueueDesignGeneration false newJobId data st).2.diagramQueue = st.diagramQueue ∧
      getJobStatusCache (enqueueDesignGeneration false newJobId data st).2.cache newJobId =
        some { status := JobStatus.PENDING, progress := 0, message := "Job queued" }) ∧
    (∀ newJobId data st,
      enqueueDesignGeneration true newJobId data st = (Except.error "db.job.create failed", st)) ∧
    (∀ createFails newJobId data st, queueRefsExistingJobs st →
      queueRefsExistingJobs (enqueueDesignGeneration createFails newJobId data st).2) := by
  refine ⟨?_, fun newJobId data st => rfl, ?_⟩
  · intro newJobId data st
    refine ⟨rfl, rfl, rfl, rfl, ?_⟩
    unfold enqueueDesignGeneration setJobStatus getJobStatusCache
    rw [if_neg (by simp)]
    dsimp only
    rw [List.find?_cons_of_pos _ (by simp)]
    rfl
  · intro createFails newJobId data st hst
    cases createFails with
    | true => exact hst
    | false =>
      intro e he
      unfold enqueueDesignGeneration at he ⊢
      rw [if_neg (by simp)] at he ⊢
      dsimp only at he ⊢
      rcases List.mem_append.mp he with hold | hnew
      · obtain ⟨j, hj, hid⟩ := hst e hold
        exact ⟨j, List.mem_append_left _ hj, hid⟩
      · refine ⟨_, List.mem_append_right _ (List.mem_singleton_self _), ?_⟩
        simp only [List.mem_singleton] at hnew
        subst hnew
        rfl

/-- Claim C5 witness. -/
theorem enqueueDesignGeneration_effects_witness :
    queueRefsExistingJobs (enqueueDesignGeneration false "job1" samplePayload emptyAppState).2 :=
  enqueueDesignGeneration_effects.2.2 false "job1" samplePayload emptyAppState
    (fun e he => absurd he (by simp [emptyAppState]))

/-! ### Claim C7 -/

/-- Claim C7: refining a request that has no existing `DesignVersion`
fails synchronously with the BAD_REQUEST "No existing design version to
refine" error, and the state is returned untouched: no job row is
created, nothing is enqueued and no cache entry is seeded, because the
prior-version check runs strictly before `enqueueDesignGeneration`. -/
theorem refinement_requires_prior_version
    (ctxUserId designRequestId refinementPrompt : String) (detailLevel : Option String)
    (suggestions : List String) (requests : List DesignRequestRow)
    (designRows : List DesignVersionRow) (createFails : Bool) (newJobId : String)
    (st : AppState) (request : DesignRequestRow)
    (hfind : requests.find? (fun r => r.id == designRequestId && r.userId == ctxUserId) =
      some request)
    (htempl : request.projectIsTemplate = false)
    (hnone : latestDesignVersionRow designRows designRequestId = none) :
    refineDesign ctxUserId designRequestId refinementPrompt detailLevel suggestions requests
      designRows createFails newJobId st =
      (Except.error { code := "BAD_REQUEST", message := "No existing design version to refine" },
        st) := by
  unfold refineDesign
  rw [hfind]
  dsimp only
  rw [if_neg (by simp [htempl]), hnone]

/-- Claim C7 witness. -/
theorem refinement_requires_prior_version_witness :
    refineDesign "user1" "req1" "add a cache" none [] [sampleRequestRow] [] false "job9"
      emptyAppState =
      (Except.error { code := "BAD_REQUEST", message := "No existing design version to refine" },
        emptyAppState) :=
  refinement_requires_prior_version "user1" "req1" "add a cache" none [] [sampleRequestRow] []
    false "job9" emptyAppState sampleRequestRow (by decide) (by decide) (by decide)

/-! ### Claim C1 -/

/-- Claim C1: in every reachable state of the per-request version
allocation protocol — any interleaving of concurrent executions that
read `max existing version (or 0) + 1` and later insert under the
(request, version) unique index, including re-delivered executions —
the persisted version numbers are exactly {1, ..., N} with N the number
of successful inserts: gapless, starting at 1, never repeating and never
skipping. -/
theorem designVersion_numbers_gapless (s : AllocState) (h : AllocReachable s) :
    s.versions.Nodup ∧ ∀ v, v ∈ s.versions ↔ 1 ≤ v ∧ v ≤ s.completed := by
  have hinv := allocReachable_invariant h
  exact ⟨hinv.1, hinv.2.1⟩

/-- Claim C1 witness: two concurrent refinements both read max 0; the
first insert of version 1 succeeds, the second conflicts and writes
nothing; the surviving store is exactly {1} for one successful run. -/
theorem designVersion_numbers_gapless_witness :
    allocS4.versions.Nodup ∧ (1 ∈ allocS4.versions ↔ 1 ≤ 1 ∧ 1 ≤ allocS4.completed) := by
  have h1 : AllocStep allocInit allocS1 := AllocStep.read allocInit
  have h2 : AllocStep allocS1 allocS2 := AllocStep.read allocS1
  have h3 : AllocStep allocS2 allocS3 :=
    AllocStep.insertOk allocS2 1 (by decide) (by decide)
  have h4 : AllocStep allocS3 allocS4 :=
    AllocStep.insertConflict allocS3 1 (by decide) (by decide)
  have hreach : AllocReachable allocS4 :=
    Relation.ReflTransGen.head h1 (Relation.ReflTransGen.head h2
      (Relation.ReflTransGen.head h3 (Relation.ReflTransGen.head h4 Relation.ReflTransGen.refl)))
  exact ⟨(designVersion_numbers_gapless allocS4 hreach).1,
    (designVersion_numbers_gapless allocS4 hreach).2 1⟩


/-- Claim C6 witness. -/
theorem generateDesign_total_with_fallback_witness :
    generateDesign sampleInput (some { design := none, mermaidDiagram := none }) =
      generateMockDesign sampleInput :=
  generateDesign_total_with_fallback.2.1 sampleInput
    { design := none, mermaidDiagram := none } (Or.inl rfl)

/-- Claim C9 witness. -/
theorem renderer_invalid_source_storable_witness :
    (renderMermaidToSvg "").error = some "Empty diagram source" ∧
    ((renderMermaidToSvg "graph TD\nA-->B").error = none ↔
      validTypes.any (fun t =>
        strIncludes (jsToLower (firstLineOf (jsTrim "graph TD\nA-->B"))) (jsToLower t)) = true) :=
  ⟨renderer_invalid_source_storable.2.1 "" (by decide),
   renderer_invalid_source_storable.2.2.1 "graph TD\nA-->B" (by decide)⟩

end ArchitectureDeck
